import Mathlib

/-!
Shallow embedding of `src/onlinejudge_command/main.py` (the command-routing
entry point of the `oj` tool): argument defaults, subcommand alias dispatch,
logging initialization, the update advisory query, and the exception-to-exit
policy of `main`.  The run is modelled as a trace of observable events paired
with an outcome; Python exceptions are modelled by `PyExc`, whose class tests
record that `NotImplementedError` is an `Exception` while `SystemExit` is not.
-/

namespace OJ

/-- The seven subcommand handlers dispatched by `run_program`
(main.py lines 61-74).  Handler bodies are external collaborators. -/
inductive Handler where
  | download
  | login
  | submit
  | test
  | testReactive
  | generateOutput
  | generateInput
deriving DecidableEq, Repr

/-- Python exceptions relevant to `main` (main.py lines 95-110):
`NotImplementedError`, any other `Exception` carrying `str(e)`,
and `SystemExit(code)` raised by `sys.exit(code)`. -/
inductive PyExc where
  | notImplementedError
  | exception (msg : String)
  | systemExit (code : Nat)
deriving DecidableEq, Repr

/-- Python test `isinstance(e, NotImplementedError)`: the class tested by the first
`except` clause of `main` (main.py line 97). -/
def PyExc.isNotImplementedError : PyExc → Bool
  | .notImplementedError => true
  | _ => false

/-- Python test `isinstance(e, Exception)`: the class tested by the second `except`
clause of `main` (main.py line 105).  `NotImplementedError` is a subclass of
`Exception`; `SystemExit` subclasses only `BaseException`, so it is not. -/
def PyExc.isException : PyExc → Bool
  | .notImplementedError => true
  | .exception _ => true
  | .systemExit _ => false

/-- Python value `str(e)` as logged by `logger.exception(str(e))` (main.py line 107). -/
def PyExc.msgOf : PyExc → String
  | .notImplementedError => ""
  | .exception m => m
  | .systemExit c => toString c

/-- The code carried by an uncaught `SystemExit`; other cases unreachable
where this is used. -/
def PyExc.sysExitCode : PyExc → Nat
  | .systemExit c => c
  | _ => 1

/-- Logging severities chosen at main.py lines 85-87. -/
inductive LogLevel where
  | INFO
  | DEBUG
deriving DecidableEq, Repr

/-- The sink of the single logging handler (main.py line 88 wraps
`sys.stdout`). -/
inductive Sink where
  | stdout
deriving DecidableEq, Repr

/-- Observable events of one run of `main`, in program order. -/
inductive Event where
  /-- call `print(...)` to standard output (main.py line 52). -/
  | printOut (s : String)
  /-- call `parser.print_help(file=sys.stderr)` (main.py line 76). -/
  | printHelpStderr
  /-- call `basicConfig(level=..., handlers=[StreamHandler(sys.stdout)])`
  (main.py lines 88-90). -/
  | configLogging (lvl : LogLevel) (sink : Sink)
  /-- the call `update_checking.run()` (main.py line 93). -/
  | queryAdvisory
  /-- call `logger.debug` on the parsed args (main.py line 54). -/
  | logDebugArgs
  /-- call `logger.debug` on the full traceback text
  (main.py lines 98 and 106). -/
  | logDebugTrace
  /-- a `logger.info` line with the given text. -/
  | logInfo (s : String)
  /-- a `logger.error`-level line with the given text (also covers
  `logger.exception`, which logs at error level). -/
  | logError (s : String)
  /-- invocation of a subcommand handler (main.py lines 62-74). -/
  | invokeHandler (h : Handler)
deriving DecidableEq, Repr

/-- Parsed arguments (the fields of the `argparse.Namespace` that
`run_program` and `main` read): `-v` (verbose), `-c` (cookie),
`--version`, and the subcommand token (`None` when absent). -/
structure Args where
  verbose : Bool
  cookie : String
  version : Bool
  subcommand : Option String
deriving DecidableEq, Repr

/-- Modelled from the spec: `utils.default_cookie_path` (the cookie-path
collaborator utility, `onlinejudge_command/utils.py`, not under `src/`)
supplies a fixed default filesystem path; its exact value is opaque here. -/
def utils_default_cookie_path : String := "cookie.jar"

/-- The parsed value of the `-c` (cookie) option: `argparse` stores the supplied path,
or `utils.default_cookie_path` when the flag is omitted, per
`default=utils.default_cookie_path` at main.py line 35. -/
def parsedCookie : Option String → String
  | none => utils_default_cookie_path
  | some p => p

/-- Modelled from the spec: `utils.HINT` (from `onlinejudge_command/utils.py`,
not under `src/`) is an opaque fixed marker that tags hint lines. -/
def utils_HINT : String := "[HINT] "

/-- The upgrade-hint line logged at main.py lines 103 and 109. -/
def hintLine : String :=
  utils_HINT ++ "try updating the version of online-judge-tools: $ pip3 install -U online-judge-tools online-judge-api-client"

/-- The version line printed at main.py line 52 and logged at line 57,
given the tool version `tv` (`version.__version__`) and the API-client
version `av` (`api_version.__version__`). -/
def versionLine (tv av : String) : String :=
  "online-judge-tools " ++ (tv ++ (" (+ online-judge-api-client " ++ (av ++ ")")))

/-- The possible observations of one query to the Update Advisory
collaborator. -/
inductive AdvisoryOutcome where
  | current
  | notCurrent
  | errored
deriving DecidableEq, Repr

/-- Modelled from the spec: `onlinejudge_command.update_checking.run`
(module not under `src/`) returns a boolean "is current" signal and is
fail-open — any internal failure of the advisory is absorbed and treated
as "current". -/
def update_checking_run : AdvisoryOutcome → Bool
  | .current => true
  | .notCurrent => false
  | .errored => true

/-- A handler's behavior: `none` = returns normally, `some e` = raises `e`
(a handler may also call `sys.exit`, i.e. raise `SystemExit`). -/
def HandlerBehavior : Type := Handler → Option PyExc

/-- Python's `args.subcommand in [...]` test: `None in [...]` is `False`
for a list of strings. -/
def subIn (sub : Option String) (l : List String) : Bool :=
  match sub with
  | none => false
  | some t => l.contains t

/-- Invoking one handler: the invocation event, then the handler's outcome. -/
def invoke (hb : HandlerBehavior) (h : Handler) : List Event × Option PyExc :=
  ([Event.invokeHandler h], hb h)

/-- The `if/elif` dispatch chain of `run_program` (main.py lines 61-77):
membership tests against the literal alias lists, in source order; the
`else` branch prints help to stderr and raises `SystemExit(1)`. -/
def dispatch (hb : HandlerBehavior) (sub : Option String) :
    List Event × Option PyExc :=
  if subIn sub ["download", "d", "dl"] then invoke hb Handler.download
  else if subIn sub ["login", "l"] then invoke hb Handler.login
  else if subIn sub ["submit", "s"] then invoke hb Handler.submit
  else if subIn sub ["test", "t"] then invoke hb Handler.test
  else if subIn sub ["test-reactive", "t/r"] then invoke hb Handler.testReactive
  else if subIn sub ["generate-output", "g/o"] then invoke hb Handler.generateOutput
  else if subIn sub ["generate-input", "g/i"] then invoke hb Handler.generateInput
  else ([Event.printHelpStderr], some (PyExc.systemExit 1))

/-- Function `run_program` (main.py lines 50-77): the `--version` short-circuit
prints the version line and raises `SystemExit(0)`; otherwise a debug log
of the args, an info log of the version line, then the dispatch chain.
Result: the emitted events and the exception raised, if any. -/
def run_program (hb : HandlerBehavior) (tv av : String) (args : Args) :
    List Event × Option PyExc :=
  if args.version then
    ([Event.printOut (versionLine tv av)], some (PyExc.systemExit 0))
  else
    let d := dispatch hb args.subcommand
    (Event.logDebugArgs :: Event.logInfo (versionLine tv av) :: d.1, d.2)

/-- The `except NotImplementedError` branch of `main`
(main.py lines 97-104). -/
def notSupportedBranch (is_updated : Bool) : List Event :=
  [Event.logDebugTrace,
   Event.logError "NotImplementedError",
   Event.logInfo "The operation you specified is not supported yet. Pull requests are welcome.",
   Event.logInfo "see: https://github.com/online-judge-tools/oj"]
  ++ (if is_updated then [] else [Event.logInfo hintLine])

/-- The `except Exception` branch of `main` (main.py lines 105-110). -/
def unhandledBranch (e : PyExc) (is_updated : Bool) : List Event :=
  [Event.logDebugTrace, Event.logError e.msgOf]
  ++ (if is_updated then [] else [Event.logInfo hintLine])

/-- The ordered `except` clauses wrapping `run_program` in `main`
(main.py lines 95-110), applied to a raised exception: the first clause
whose class matches handles it; an exception matching neither class
(`SystemExit`) propagates and terminates the process with its code. -/
def handle_exc (e : PyExc) (is_updated : Bool) (evs : List Event) :
    List Event × Nat :=
  if e.isNotImplementedError then (evs ++ notSupportedBranch is_updated, 1)
  else if e.isException then (evs ++ unhandledBranch e is_updated, 1)
  else (evs, e.sysExitCode)

/-- Function `main` (main.py lines 80-110), after argument parsing: configure
logging once (DEBUG iff verbose, single handler on stdout), query the
update advisory once, run `run_program` under the exception policy.
Result: the full event trace and the process exit code. -/
def main_run (hb : HandlerBehavior) (adv : AdvisoryOutcome) (tv av : String)
    (args : Args) : List Event × Nat :=
  let lvl := if args.verbose then LogLevel.DEBUG else LogLevel.INFO
  let pre : List Event := [Event.configLogging lvl Sink.stdout, Event.queryAdvisory]
  let is_updated := update_checking_run adv
  let r := run_program hb tv av args
  match r.2 with
  | none => (pre ++ r.1, 0)
  | some e =>
    let h := handle_exc e is_updated r.1
    (pre ++ h.1, h.2)

/-- The handlers invoked during a trace, in order. -/
def invokedHandlers (evs : List Event) : List Handler :=
  evs.filterMap fun e =>
    match e with
    | Event.invokeHandler h => some h
    | _ => none

/-- Spec-side alias table (§4.1 / §6 of the spec): the canonical
subcommand, if any, that a token resolves to — download {d, dl},
login {l}, submit {s}, test {t}, test-reactive {t/r},
generate-output {g/o}, generate-input {g/i}. -/
def specResolve (tok : String) : Option Handler :=
  if ["download", "d", "dl"].contains tok then some Handler.download
  else if ["login", "l"].contains tok then some Handler.login
  else if ["submit", "s"].contains tok then some Handler.submit
  else if ["test", "t"].contains tok then some Handler.test
  else if ["test-reactive", "t/r"].contains tok then some Handler.testReactive
  else if ["generate-output", "g/o"].contains tok then some Handler.generateOutput
  else if ["generate-input", "g/i"].contains tok then some Handler.generateInput
  else none

/-- A trace is free of failure-path output: no debug trace, no error-level
line, no upgrade hint. -/
def noFailureOutput (evs : List Event) : Prop :=
  Event.logDebugTrace ∉ evs ∧ (∀ s, Event.logError s ∉ evs)
  ∧ Event.logInfo hintLine ∉ evs

/-- String `s` contains `t` as a substring. -/
def containsStr (s t : String) : Prop := ∃ p q, s = p ++ (t ++ q)

end OJ
namespace OJ

/-- The version line can never coincide with the upgrade-hint line:
their first characters differ. -/
lemma versionLine_ne_hintLine (tv av : String) : versionLine tv av ≠ hintLine := by
  intro h
  have h2 := congrArg (fun s => s.data.take 1) h
  have e1 : ("online-judge-tools ").data = 'o' :: ("nline-judge-tools ").data := rfl
  have e2 : (utils_HINT).data = '[' :: ("HINT] ").data := rfl
  simp only [versionLine, hintLine, String.data_append, e1, e2, List.cons_append,
    List.take_cons, List.take_succ_cons, List.take_zero] at h2
  exact absurd h2 (by decide)

/-- The version line contains both version strings as substrings. -/
lemma versionLine_contains (tv av : String) :
    containsStr (versionLine tv av) tv ∧ containsStr (versionLine tv av) av :=
  ⟨⟨"online-judge-tools ", " (+ online-judge-api-client " ++ (av ++ ")"), rfl⟩,
   ⟨"online-judge-tools " ++ (tv ++ " (+ online-judge-api-client "), ")",
     by simp [versionLine, String.append_assoc]⟩⟩

/-- The full trace of a run with the version flag set. -/
lemma version_trace (hb : HandlerBehavior) (adv : AdvisoryOutcome) (tv av ck : String)
    (vb : Bool) (sub : Option String) :
    main_run hb adv tv av ⟨vb, ck, true, sub⟩
      = ([Event.configLogging (if vb then LogLevel.DEBUG else LogLevel.INFO) Sink.stdout,
          Event.queryAdvisory, Event.printOut (versionLine tv av)], 0) := by
  simp [main_run, run_program, handle_exc, PyExc.isNotImplementedError, PyExc.isException,
    PyExc.sysExitCode]

/-- The full trace of a run whose subcommand token is missing or resolves
to no registry entry. -/
lemma unknown_trace (hb : HandlerBehavior) (adv : AdvisoryOutcome) (tv av ck : String)
    (vb : Bool) (sub : Option String)
    (hres : ∀ t, sub = some t → specResolve t = none) :
    main_run hb adv tv av ⟨vb, ck, false, sub⟩
      = ([Event.configLogging (if vb then LogLevel.DEBUG else LogLevel.INFO) Sink.stdout,
          Event.queryAdvisory, Event.logDebugArgs,
          Event.logInfo (versionLine tv av), Event.printHelpStderr], 1) := by
  cases sub with
  | none =>
    simp [main_run, run_program, dispatch, subIn, handle_exc,
      PyExc.isNotImplementedError, PyExc.isException, PyExc.sysExitCode]
  | some t =>
    have ht := hres t rfl
    simp only [specResolve] at ht
    split_ifs at ht
    all_goals
      first
        | exact Option.noConfusion ht
        | simp_all [main_run, run_program, dispatch, subIn, handle_exc,
            PyExc.isNotImplementedError, PyExc.isException, PyExc.sysExitCode]

/-- Claim C1: every token in the alias table dispatches exactly the handler
of its canonical subcommand; canonical name and aliases reach the same
handler. -/
theorem C1_alias_dispatch (hb : HandlerBehavior) (tv av ck : String) (vb : Bool)
    (tok : String) (h : Handler) (hres : specResolve tok = some h) :
    invokedHandlers (run_program hb tv av ⟨vb, ck, false, some tok⟩).1 = [h] := by
  simp only [specResolve] at hres
  simp only [run_program, dispatch, subIn]
  split_ifs at hres <;> simp_all [invoke, invokedHandlers]

theorem C1_alias_dispatch_witness :
    specResolve "dl" = some Handler.download
    ∧ invokedHandlers
        (run_program (fun _ => none) "1.0" "2.0" ⟨false, "c", false, some "dl"⟩).1
      = [Handler.download] :=
  ⟨by decide, C1_alias_dispatch (fun _ => none) "1.0" "2.0" "c" false "dl"
    Handler.download (by decide)⟩

/-- Claim C2 counterexample: on a concrete run with the version flag set,
the update advisory IS queried (main.py line 93 runs before `run_program`),
refuting "the Update Advisory collaborator is never queried". -/
theorem C2_counterexample :
    Event.queryAdvisory
      ∈ (main_run (fun _ => none) AdvisoryOutcome.current "2.0.0" "1.0.0"
          ⟨false, "cookie.jar", true, none⟩).1 := by
  rw [version_trace]
  simp

/-- Claim C2 (amended): with the version flag set, the run prints the
version line and exits 0 with no subcommand handler invoked and nothing
executing after the version print; the advisory, however, is queried once
before dispatch. -/
theorem C2_version_short_circuit (hb : HandlerBehavior) (adv : AdvisoryOutcome)
    (tv av ck : String) (vb : Bool) (sub : Option String) :
    main_run hb adv tv av ⟨vb, ck, true, sub⟩
      = ([Event.configLogging (if vb then LogLevel.DEBUG else LogLevel.INFO) Sink.stdout,
          Event.queryAdvisory, Event.printOut (versionLine tv av)], 0) :=
  version_trace hb adv tv av ck vb sub

/-- Claim C3: whenever the version flag is set, regardless of the other
flags and subcommand token, the run prints a line containing both the tool
version and the API-client version, exits 0, and invokes no handler. -/
theorem C3_version_flag (hb : HandlerBehavior) (adv : AdvisoryOutcome)
    (tv av ck : String) (vb : Bool) (sub : Option String) :
    (main_run hb adv tv av ⟨vb, ck, true, sub⟩).2 = 0
    ∧ invokedHandlers (main_run hb adv tv av ⟨vb, ck, true, sub⟩).1 = []
    ∧ ∃ s, Event.printOut s ∈ (main_run hb adv tv av ⟨vb, ck, true, sub⟩).1
        ∧ containsStr s tv ∧ containsStr s av := by
  rw [version_trace]
  exact ⟨rfl, by simp [invokedHandlers], versionLine tv av, by simp,
    (versionLine_contains tv av).1, (versionLine_contains tv av).2⟩

end OJ
namespace OJ

/-- Closed inequalities separating the hint line from the fixed message
lines of the failure branches. -/
lemma hintLine_ne_fixed :
    hintLine ≠ "NotImplementedError"
    ∧ hintLine ≠ "The operation you specified is not supported yet. Pull requests are welcome."
    ∧ hintLine ≠ "see: https://github.com/online-judge-tools/oj" := by
  refine ⟨?_, ?_, ?_⟩ <;> decide

/-- The trace of a run dispatched to handler `h` that raises `e`: the
common prelude followed by whatever the exception policy does with `e`. -/
lemma raising_trace (hb : HandlerBehavior) (adv : AdvisoryOutcome) (tv av ck : String)
    (vb : Bool) (tok : String) (h : Handler) (e : PyExc)
    (hres : specResolve tok = some h) (hbe : hb h = some e) :
    main_run hb adv tv av ⟨vb, ck, false, some tok⟩
      = ([Event.configLogging (if vb then LogLevel.DEBUG else LogLevel.INFO) Sink.stdout,
          Event.queryAdvisory]
          ++ (handle_exc e (update_checking_run adv)
              [Event.logDebugArgs, Event.logInfo (versionLine tv av),
               Event.invokeHandler h]).1,
         (handle_exc e (update_checking_run adv)
              [Event.logDebugArgs, Event.logInfo (versionLine tv av),
               Event.invokeHandler h]).2) := by
  simp only [specResolve] at hres
  split_ifs at hres
  all_goals first
    | exact Option.noConfusion hres
    | (injection hres with he; subst he;
       simp_all [main_run, run_program, dispatch, subIn, invoke])

/-- Claim C4: a handler failure outside the NotSupported class yields a
debug trace, an error line carrying the failure's message, the upgrade
hint exactly when the advisory reported "not current" (hence not when it
errored, fail-open), and exit code 1. -/
theorem C4_unhandled_failure (hb : HandlerBehavior) (adv : AdvisoryOutcome)
    (tv av ck : String) (vb : Bool) (tok : String) (h : Handler) (msg : String)
    (hres : specResolve tok = some h) (hbe : hb h = some (PyExc.exception msg)) :
    (main_run hb adv tv av ⟨vb, ck, false, some tok⟩).2 = 1
    ∧ Event.logDebugTrace ∈ (main_run hb adv tv av ⟨vb, ck, false, some tok⟩).1
    ∧ Event.logError msg ∈ (main_run hb adv tv av ⟨vb, ck, false, some tok⟩).1
    ∧ (Event.logInfo hintLine ∈ (main_run hb adv tv av ⟨vb, ck, false, some tok⟩).1
        ↔ adv = AdvisoryOutcome.notCurrent) := by
  have hne := versionLine_ne_hintLine tv av
  have hne' := (versionLine_ne_hintLine tv av).symm
  rw [raising_trace hb adv tv av ck vb tok h (PyExc.exception msg) hres hbe]
  cases adv <;>
    simp_all [handle_exc, PyExc.isNotImplementedError, PyExc.isException,
      unhandledBranch, update_checking_run, PyExc.msgOf]

theorem C4_unhandled_failure_witness :
    specResolve "s" = some Handler.submit
    ∧ ((fun _ => some (PyExc.exception "boom")) : HandlerBehavior) Handler.submit
        = some (PyExc.exception "boom")
    ∧ ((main_run (fun _ => some (PyExc.exception "boom")) AdvisoryOutcome.notCurrent
          "1.0" "2.0" ⟨false, "c", false, some "s"⟩).2 = 1
       ∧ Event.logDebugTrace
           ∈ (main_run (fun _ => some (PyExc.exception "boom")) AdvisoryOutcome.notCurrent
               "1.0" "2.0" ⟨false, "c", false, some "s"⟩).1
       ∧ Event.logError "boom"
           ∈ (main_run (fun _ => some (PyExc.exception "boom")) AdvisoryOutcome.notCurrent
               "1.0" "2.0" ⟨false, "c", false, some "s"⟩).1
       ∧ (Event.logInfo hintLine
            ∈ (main_run (fun _ => some (PyExc.exception "boom")) AdvisoryOutcome.notCurrent
                "1.0" "2.0" ⟨false, "c", false, some "s"⟩).1
          ↔ AdvisoryOutcome.notCurrent = AdvisoryOutcome.notCurrent)) :=
  ⟨by decide, rfl,
    C4_unhandled_failure (fun _ => some (PyExc.exception "boom")) AdvisoryOutcome.notCurrent
      "1.0" "2.0" "c" false "s" Handler.submit "boom" (by decide) rfl⟩

/-- Claim C5: a handler signalling NotImplementedError yields a debug
trace, the error-level class marker, the contribution notes, the upgrade
hint exactly when the advisory reported "not current", and exit code 1. -/
theorem C5_not_supported_failure (hb : HandlerBehavior) (adv : AdvisoryOutcome)
    (tv av ck : String) (vb : Bool) (tok : String) (h : Handler)
    (hres : specResolve tok = some h) (hbe : hb h = some PyExc.notImplementedError) :
    (main_run hb adv tv av ⟨vb, ck, false, some tok⟩).2 = 1
    ∧ Event.logDebugTrace ∈ (main_run hb adv tv av ⟨vb, ck, false, some tok⟩).1
    ∧ Event.logError "NotImplementedError"
        ∈ (main_run hb adv tv av ⟨vb, ck, false, some tok⟩).1
    ∧ Event.logInfo "The operation you specified is not supported yet. Pull requests are welcome."
        ∈ (main_run hb adv tv av ⟨vb, ck, false, some tok⟩).1
    ∧ Event.logInfo "see: https://github.com/online-judge-tools/oj"
        ∈ (main_run hb adv tv av ⟨vb, ck, false, some tok⟩).1
    ∧ (Event.logInfo hintLine ∈ (main_run hb adv tv av ⟨vb, ck, false, some tok⟩).1
        ↔ adv = AdvisoryOutcome.notCurrent) := by
  have hne' := (versionLine_ne_hintLine tv av).symm
  have hfix := hintLine_ne_fixed
  rw [raising_trace hb adv tv av ck vb tok h PyExc.notImplementedError hres hbe]
  cases adv <;>
    simp_all [handle_exc, PyExc.isNotImplementedError, PyExc.isException,
      notSupportedBranch, update_checking_run]

theorem C5_not_supported_failure_witness :
    specResolve "g/i" = some Handler.generateInput
    ∧ ((fun _ => some PyExc.notImplementedError) : HandlerBehavior) Handler.generateInput
        = some PyExc.notImplementedError
    ∧ ((main_run (fun _ => some PyExc.notImplementedError) AdvisoryOutcome.current
          "1.0" "2.0" ⟨false, "c", false, some "g/i"⟩).2 = 1
       ∧ Event.logDebugTrace
           ∈ (main_run (fun _ => some PyExc.notImplementedError) AdvisoryOutcome.current
               "1.0" "2.0" ⟨false, "c", false, some "g/i"⟩).1
       ∧ Event.logError "NotImplementedError"
           ∈ (main_run (fun _ => some PyExc.notImplementedError) AdvisoryOutcome.current
               "1.0" "2.0" ⟨false, "c", false, some "g/i"⟩).1
       ∧ Event.logInfo "The operation you specified is not supported yet. Pull requests are welcome."
           ∈ (main_run (fun _ => some PyExc.notImplementedError) AdvisoryOutcome.current
               "1.0" "2.0" ⟨false, "c", false, some "g/i"⟩).1
       ∧ Event.logInfo "see: https://github.com/online-judge-tools/oj"
           ∈ (main_run (fun _ => some PyExc.notImplementedError) AdvisoryOutcome.current
               "1.0" "2.0" ⟨false, "c", false, some "g/i"⟩).1
       ∧ (Event.logInfo hintLine
            ∈ (main_run (fun _ => some PyExc.notImplementedError) AdvisoryOutcome.current
                "1.0" "2.0" ⟨false, "c", false, some "g/i"⟩).1
          ↔ AdvisoryOutcome.current = AdvisoryOutcome.notCurrent)) :=
  ⟨by decide, rfl,
    C5_not_supported_failure (fun _ => some PyExc.notImplementedError) AdvisoryOutcome.current
      "1.0" "2.0" "c" false "g/i" Handler.generateInput (by decide) rfl⟩

/-- Claim C6: a missing or unknown subcommand token yields exactly the
help printout on stderr with exit code 1, and no handler is invoked. -/
theorem C6_missing_or_unknown (hb : HandlerBehavior) (adv : AdvisoryOutcome)
    (tv av ck : String) (vb : Bool) (sub : Option String)
    (hres : ∀ t, sub = some t → specResolve t = none) :
    main_run hb adv tv av ⟨vb, ck, false, sub⟩
      = ([Event.configLogging (if vb then LogLevel.DEBUG else LogLevel.INFO) Sink.stdout,
          Event.queryAdvisory, Event.logDebugArgs,
          Event.logInfo (versionLine tv av), Event.printHelpStderr], 1)
    ∧ invokedHandlers (main_run hb adv tv av ⟨vb, ck, false, sub⟩).1 = [] := by
  have ht := unknown_trace hb adv tv av ck vb sub hres
  exact ⟨ht, by rw [ht]; simp [invokedHandlers]⟩

theorem C6_missing_or_unknown_witness :
    (∀ t, (some "frobnicate" : Option String) = some t → specResolve t = none)
    ∧ (main_run (fun _ => none) AdvisoryOutcome.current "1.0" "2.0"
         ⟨false, "c", false, some "frobnicate"⟩
        = ([Event.configLogging LogLevel.INFO Sink.stdout,
            Event.queryAdvisory, Event.logDebugArgs,
            Event.logInfo (versionLine "1.0" "2.0"), Event.printHelpStderr], 1)
       ∧ invokedHandlers (main_run (fun _ => none) AdvisoryOutcome.current "1.0" "2.0"
           ⟨false, "c", false, some "frobnicate"⟩).1 = []) := by
  have hyp : ∀ t, (some "frobnicate" : Option String) = some t → specResolve t = none := by
    intro t ht
    injection ht with ht
    subst ht
    decide
  exact ⟨hyp, C6_missing_or_unknown (fun _ => none) AdvisoryOutcome.current "1.0" "2.0"
    "c" false (some "frobnicate") hyp⟩

/-- Claim C9: failure classification is deterministic and NotSupported
takes precedence — a NotImplementedError always produces exactly the
NotSupported branch, even though it is also a member of the general
Exception class matched by the second clause. -/
theorem C9_not_supported_precedence (hb : HandlerBehavior) (adv : AdvisoryOutcome)
    (tv av ck : String) (vb : Bool) (tok : String) (h : Handler)
    (hres : specResolve tok = some h) (hbe : hb h = some PyExc.notImplementedError) :
    main_run hb adv tv av ⟨vb, ck, false, some tok⟩
      = ([Event.configLogging (if vb then LogLevel.DEBUG else LogLevel.INFO) Sink.stdout,
          Event.queryAdvisory, Event.logDebugArgs, Event.logInfo (versionLine tv av),
          Event.invokeHandler h] ++ notSupportedBranch (update_checking_run adv), 1)
    ∧ PyExc.notImplementedError.isException = true := by
  refine ⟨?_, rfl⟩
  rw [raising_trace hb adv tv av ck vb tok h PyExc.notImplementedError hres hbe]
  simp [handle_exc, PyExc.isNotImplementedError]

theorem C9_not_supported_precedence_witness :
    specResolve "t/r" = some Handler.testReactive
    ∧ ((fun _ => some PyExc.notImplementedError) : HandlerBehavior) Handler.testReactive
        = some PyExc.notImplementedError
    ∧ (main_run (fun _ => some PyExc.notImplementedError) AdvisoryOutcome.current
         "1.0" "2.0" ⟨false, "c", false, some "t/r"⟩
        = ([Event.configLogging LogLevel.INFO Sink.stdout,
            Event.queryAdvisory, Event.logDebugArgs, Event.logInfo (versionLine "1.0" "2.0"),
            Event.invokeHandler Handler.testReactive]
            ++ notSupportedBranch (update_checking_run AdvisoryOutcome.current), 1)
       ∧ PyExc.notImplementedError.isException = true) :=
  ⟨by decide, rfl,
    C9_not_supported_precedence (fun _ => some PyExc.notImplementedError)
      AdvisoryOutcome.current "1.0" "2.0" "c" false "t/r" Handler.testReactive
      (by decide) rfl⟩

end OJ
namespace OJ

/-- No dispatch branch emits a logging-configuration event. -/
lemma configLogging_not_in_dispatch (hb : HandlerBehavior) (sub : Option String)
    (l : LogLevel) (s : Sink) : Event.configLogging l s ∉ (dispatch hb sub).1 := by
  unfold dispatch invoke
  split_ifs <;> simp

/-- Function `run_program` never emits a logging-configuration event. -/
lemma configLogging_not_in_run_program (hb : HandlerBehavior) (tv av : String)
    (args : Args) (l : LogLevel) (s : Sink) :
    Event.configLogging l s ∉ (run_program hb tv av args).1 := by
  unfold run_program
  split_ifs <;> simp [configLogging_not_in_dispatch]

/-- The exception policy preserves absence of logging-configuration
events. -/
lemma configLogging_not_in_handle (e : PyExc) (u : Bool) (evs : List Event)
    (l : LogLevel) (s : Sink) (hnin : Event.configLogging l s ∉ evs) :
    Event.configLogging l s ∉ (handle_exc e u evs).1 := by
  unfold handle_exc notSupportedBranch unhandledBranch
  split_ifs <;> simp_all

/-- Claim C7: logging is configured exactly once, as the first step of the
run, at severity DEBUG iff verbose, on the single stdout sink; and an
omitted cookie flag yields the collaborator-supplied default path. -/
theorem C7_logging_once_and_cookie_default (hb : HandlerBehavior) (adv : AdvisoryOutcome)
    (tv av ck : String) (vb ver : Bool) (sub : Option String) :
    (∃ rest, (main_run hb adv tv av ⟨vb, ck, ver, sub⟩).1
        = Event.configLogging (if vb then LogLevel.DEBUG else LogLevel.INFO) Sink.stdout
            :: rest
      ∧ ∀ l s, Event.configLogging l s ∉ rest)
    ∧ parsedCookie none = utils_default_cookie_path := by
  refine ⟨?_, rfl⟩
  cases hr : (run_program hb tv av ⟨vb, ck, ver, sub⟩).2 with
  | none =>
    refine ⟨Event.queryAdvisory :: (run_program hb tv av ⟨vb, ck, ver, sub⟩).1, ?_, ?_⟩
    · simp [main_run, hr]
    · intro l s
      simp only [List.mem_cons, not_or]
      exact ⟨by simp, configLogging_not_in_run_program hb tv av _ l s⟩
  | some e =>
    refine ⟨Event.queryAdvisory
        :: (handle_exc e (update_checking_run adv)
            (run_program hb tv av ⟨vb, ck, ver, sub⟩).1).1, ?_, ?_⟩
    · simp [main_run, hr]
    · intro l s
      simp only [List.mem_cons, not_or]
      exact ⟨by simp, configLogging_not_in_handle e (update_checking_run adv) _ l s
        (configLogging_not_in_run_program hb tv av _ l s)⟩

/-- Claim C8: the exits raised on the version path and on the
missing-or-unknown-subcommand path escape both except clauses (SystemExit
is in neither caught class), so those runs terminate with codes 0 and 1
respectively with no failure output. -/
theorem C8_systemexit_uncaught (hb : HandlerBehavior) (adv : AdvisoryOutcome)
    (tv av ck : String) (vb : Bool) (sub1 sub2 : Option String)
    (hres : ∀ t, sub2 = some t → specResolve t = none) :
    ((main_run hb adv tv av ⟨vb, ck, true, sub1⟩).2 = 0
      ∧ noFailureOutput (main_run hb adv tv av ⟨vb, ck, true, sub1⟩).1)
    ∧ ((main_run hb adv tv av ⟨vb, ck, false, sub2⟩).2 = 1
      ∧ noFailureOutput (main_run hb adv tv av ⟨vb, ck, false, sub2⟩).1)
    ∧ (∀ c, (PyExc.systemExit c).isException = false
          ∧ (PyExc.systemExit c).isNotImplementedError = false) := by
  have hne' := (versionLine_ne_hintLine tv av).symm
  rw [version_trace hb adv tv av ck vb sub1, unknown_trace hb adv tv av ck vb sub2 hres]
  refine ⟨⟨rfl, ?_, fun s => ?_, ?_⟩, ⟨rfl, ?_, fun s => ?_, ?_⟩, fun c => ⟨rfl, rfl⟩⟩ <;>
    simp_all [noFailureOutput]

theorem C8_systemexit_uncaught_witness :
    (∀ t, (some "frobnicate" : Option String) = some t → specResolve t = none)
    ∧ (((main_run (fun _ => none) AdvisoryOutcome.current "1.0" "2.0"
          ⟨false, "c", true, none⟩).2 = 0
        ∧ noFailureOutput (main_run (fun _ => none) AdvisoryOutcome.current "1.0" "2.0"
            ⟨false, "c", true, none⟩).1)
       ∧ ((main_run (fun _ => none) AdvisoryOutcome.current "1.0" "2.0"
            ⟨false, "c", false, some "frobnicate"⟩).2 = 1
        ∧ noFailureOutput (main_run (fun _ => none) AdvisoryOutcome.current "1.0" "2.0"
            ⟨false, "c", false, some "frobnicate"⟩).1)
       ∧ (∀ c, (PyExc.systemExit c).isException = false
            ∧ (PyExc.systemExit c).isNotImplementedError = false)) := by
  have hyp : ∀ t, (some "frobnicate" : Option String) = some t → specResolve t = none := by
    intro t ht
    injection ht with ht
    subst ht
    decide
  exact ⟨hyp, C8_systemexit_uncaught (fun _ => none) AdvisoryOutcome.current "1.0" "2.0"
    "c" false none (some "frobnicate") hyp⟩

/-- The exception policy only ever appends events to the trace it is
given. -/
lemma handle_exc_events (e : PyExc) (u : Bool) (evs : List Event) :
    ∃ extra, (handle_exc e u evs).1 = evs ++ extra := by
  unfold handle_exc
  split_ifs
  · exact ⟨notSupportedBranch u, rfl⟩
  · exact ⟨unhandledBranch e u, rfl⟩
  · exact ⟨[], (List.append_nil evs).symm⟩

/-- Claim C10: every run that does not take the version short-circuit logs
an info line containing both versions before any handler is invoked,
whatever the subcommand token. -/
theorem C10_version_logged_before_dispatch (hb : HandlerBehavior) (adv : AdvisoryOutcome)
    (tv av ck : String) (vb : Bool) (sub : Option String) :
    (∃ rest, (main_run hb adv tv av ⟨vb, ck, false, sub⟩).1
        = [Event.configLogging (if vb then LogLevel.DEBUG else LogLevel.INFO) Sink.stdout,
           Event.queryAdvisory, Event.logDebugArgs,
           Event.logInfo (versionLine tv av)] ++ rest
      ∧ invokedHandlers
          [Event.configLogging (if vb then LogLevel.DEBUG else LogLevel.INFO) Sink.stdout,
           Event.queryAdvisory, Event.logDebugArgs,
           Event.logInfo (versionLine tv av)] = [])
    ∧ containsStr (versionLine tv av) tv ∧ containsStr (versionLine tv av) av := by
  refine ⟨?_, (versionLine_contains tv av).1, (versionLine_contains tv av).2⟩
  cases hr : (run_program hb tv av ⟨vb, ck, false, sub⟩).2 with
  | none =>
    simp [run_program] at hr
    refine ⟨(dispatch hb sub).1, ?_, by simp [invokedHandlers]⟩
    simp [main_run, run_program, hr]
  | some e =>
    obtain ⟨extra, hex⟩ := handle_exc_events e (update_checking_run adv)
      (run_program hb tv av ⟨vb, ck, false, sub⟩).1
    simp [run_program] at hr hex
    refine ⟨(dispatch hb sub).1 ++ extra, ?_, by simp [invokedHandlers]⟩
    simp [main_run, run_program, hr, hex]

end OJ
